import Mathlib

/-!
Verification of the Racfathers XMTP messaging agent, embedded from
src/server/index.ts.

The file embeds two layers of the program:

* the declared action space and its handlers (`fetch_bitcoin_prediction`,
  `detect_rug_pull`, `get_racfathers_info`, lines 28-149 of the source),
  together with the argument-validating dispatcher of the policy SDK,
  which is not part of the repository and is therefore modelled from the
  spec (section 4.1);

* the ingest loop of `main` (lines 194-281): the self/non-text filter,
  conversation resolution, the `activeChats` session registry, the
  try/catch around a turn, and the apology reply in the catch block.

External collaborators (the XMTP transport, the GAME policy engine, the
HTTP services behind the handlers) are oracles supplied through explicit
environment records, so every branch of the embedded control flow is the
program's own.
-/

/-- Argument value as carried in an action invocation produced by the
policy engine; numbers and strings cover the declared action space. -/
inductive JsValue where
  | num : Int → JsValue
  | str : String → JsValue
deriving DecidableEq

/-- One declared argument of a GameFunction, as written in the `args`
arrays of src/server/index.ts (name, type, description, required flag,
and optional numeric bounds). -/
structure GameArg where
  name : String
  type : String
  description : String
  required : Bool
  min : Option Int
  max : Option Int
deriving DecidableEq

/-- Declared surface of a GameFunction: its name, description and
argument schema. -/
structure GameFunctionSpec where
  name : String
  description : String
  args : List GameArg
deriving DecidableEq

/-- Status of an executed action (ExecutableGameFunctionStatus). -/
inductive FnStatus where
  | Done : FnStatus
  | Failed : FnStatus
deriving DecidableEq

/-- ExecutableGameFunctionResponse: a status plus the serialized payload
(for Done) or a human-readable error description (for Failed). -/
structure FnResponse where
  status : FnStatus
  feedback : String
deriving DecidableEq

/-- An HTTP response as the handlers consume it: the `ok` flag, status
code and status text, and the body as parsed-then-reserialized JSON
(`JSON.stringify(await res.json())`), or the parse failure's message. -/
structure HttpResponse where
  ok : Bool
  status : Nat
  statusText : String
  json : Except String String

/-- Oracles for the outbound HTTP calls the two networked handlers
perform. An `Except.error` value is a rejected fetch (network fault)
carrying the error's message; the argument is the value the handler
interpolates into the request (`none` when the invocation lacked it). -/
structure HandlerEnv where
  echoFetch : Option Int → Except String HttpResponse
  pulseFetch : Option String → Except String HttpResponse

/-- Numeric projection of a `JsValue`. -/
def jsNum : JsValue → Option Int
  | .num n => some n
  | _ => none

/-- String projection of a `JsValue`. -/
def jsStr : JsValue → Option String
  | .str s => some s
  | _ => none

/-- Schema of `fetch_bitcoin_prediction` (src lines 29-41): one required
numeric argument `amount` with declared bounds 1-10. -/
def fetch_bitcoin_prediction : GameFunctionSpec :=
  { name := "fetch_bitcoin_prediction"
    description := "Fetches the latest bitcoin predictions"
    args := [{ name := "amount", type := "number"
               description := "Number of predictions to fetch (1-10)"
               required := true, min := some 1, max := some 10 }] }

/-- Schema of `detect_rug_pull` (src lines 69-79): one required string
argument `token_address`, no bounds. -/
def detect_rug_pull : GameFunctionSpec :=
  { name := "detect_rug_pull"
    description := "Detects whether a given token has undergone a rug pull"
    args := [{ name := "token_address", type := "string"
               description := "The address of the token to analyze"
               required := true, min := none, max := none }] }

/-- Schema of `get_racfathers_info` (src lines 110-113): no arguments. -/
def get_racfathers_info : GameFunctionSpec :=
  { name := "get_racfathers_info"
    description := "Provides information about the Racfathers project"
    args := [] }

/-- The declared action space (src lines 28-149), in source order. -/
def actionSpace : List GameFunctionSpec :=
  [fetch_bitcoin_prediction, detect_rug_pull, get_racfathers_info]

/-- Handler of `fetch_bitcoin_prediction` (src lines 42-66). The whole
body sits in a try whose catch returns Failed prefixed with
"Failed to fetch echoes: "; a non-ok status throws an error whose message
itself begins with that prefix, hence the doubled prefix on that path. -/
def fetch_bitcoin_prediction_exec (env : HandlerEnv)
    (args : List (String × JsValue)) : FnResponse :=
  match env.echoFetch ((args.lookup "amount").bind jsNum) with
  | .error e => ⟨.Failed, "Failed to fetch echoes: " ++ e⟩
  | .ok r =>
    if r.ok then
      match r.json with
      | .ok payload => ⟨.Done, payload⟩
      | .error e => ⟨.Failed, "Failed to fetch echoes: " ++ e⟩
    else
      ⟨.Failed, "Failed to fetch echoes: Failed to fetch echoes: "
        ++ toString r.status ++ " " ++ r.statusText⟩

/-- Handler of `detect_rug_pull` (src lines 80-108): a non-ok status
throws "API returned {status} {statusText}", and the handler's own catch
converts any fault into Failed "Failed to detect rug pull: {message}". -/
def detect_rug_pull_exec (env : HandlerEnv)
    (args : List (String × JsValue)) : FnResponse :=
  match env.pulseFetch ((args.lookup "token_address").bind jsStr) with
  | .error e => ⟨.Failed, "Failed to detect rug pull: " ++ e⟩
  | .ok r =>
    if r.ok then
      match r.json with
      | .ok payload => ⟨.Done, payload⟩
      | .error e => ⟨.Failed, "Failed to detect rug pull: " ++ e⟩
    else
      ⟨.Failed, "Failed to detect rug pull: API returned "
        ++ toString r.status ++ " " ++ r.statusText⟩

/-- The JSON.stringify image of the statically built `info` object of
`get_racfathers_info` (src lines 116-132). -/
def racfathersInfoJson : String :=
  "\x7b\"name\":\"Racfathers\",\"description\":\"A decentralized prediction platform for cryptocurrency markets\",\"features\":[\"Bitcoin price predictions\",\"Rugpull Analysis\",\"Community-driven insights\",\"Decentralized architecture\",\"Real-time market analysis\"],\"website\":\"https://racfathers.io\",\"social\":\x7b\"twitter\":\"@racfathers\",\"discord\":\"discord.gg/racfathers\"\x7d\x7d"

/-- Handler of `get_racfathers_info` (src lines 114-148): builds a fixed
object and returns Done with its serialization; it performs no I/O, so
the catch branch of the source can never fire. -/
def get_racfathers_info_exec (_env : HandlerEnv)
    (_args : List (String × JsValue)) : FnResponse :=
  ⟨.Done, racfathersInfoJson⟩

/-- Modelled from the spec: the argument validation the Action
Dispatcher performs before invoking a handler. The dispatcher lives in
the @virtuals-protocol/game SDK and is not part of src/; section 4.1 of
the spec states that every declared required argument must be present
and every numeric argument must lie within its declared [min,max]
bounds, and that a violation yields Failed with a description naming the
offending argument, without invoking the handler. Returns `some msg` on
the first violation, in declaration order. -/
def validateArgs : List GameArg → List (String × JsValue) → Option String
  | [], _ => none
  | a :: rest, args =>
    match args.lookup a.name with
    | none =>
      if a.required then some ("Missing required argument: " ++ a.name)
      else validateArgs rest args
    | some v =>
      if a.type = "number" then
        match jsNum v with
        | none => some ("Argument " ++ a.name ++ " must be a number")
        | some n =>
          if (match a.min with | some lo => decide (n < lo) | none => false)
              || (match a.max with | some hi => decide (hi < n) | none => false) then
            some ("Argument " ++ a.name ++ " out of range")
          else validateArgs rest args
      else validateArgs rest args

/-- Modelled from the spec (section 4.1): dispatch of an action
invocation. Look the name up in the registry (unknown name is Failed,
never fatal), validate the arguments against the declared schema, and
only then invoke the matching handler from src/. -/
def dispatch (env : HandlerEnv) (fn_name : String)
    (args : List (String × JsValue)) : FnResponse :=
  match actionSpace.find? (fun f => f.name == fn_name) with
  | none => ⟨.Failed, "Unknown action: " ++ fn_name⟩
  | some spec =>
    match validateArgs spec.args args with
    | some msg => ⟨.Failed, msg⟩
    | none =>
      if spec.name = "fetch_bitcoin_prediction" then
        fetch_bitcoin_prediction_exec env args
      else if spec.name = "detect_rug_pull" then
        detect_rug_pull_exec env args
      else
        get_racfathers_info_exec env args

/-- An inbound XMTP message as the loop consumes it: conversation id,
sender inbox id, content type id, and the text content. -/
structure XmtpMessage where
  conversationId : String
  senderInboxId : String
  contentTypeId : String
  content : String
deriving DecidableEq

/-- The decision object `chat.next` resolves with: an optional function
call (already executed by the SDK), an optional reply text, and the
`isFinished` flag. -/
structure ChatResponse where
  functionCall : Option String
  message : Option String
  isFinished : Bool
deriving DecidableEq

/-- A per-peer chat as `chatAgent.createChat` returns it (src lines
247-251): bound to the sender's inbox id as partner id and partner name,
to the declared action space, and to the agent's persona. `chatId` is a
creation counter identifying the session object. -/
structure Chat where
  chatId : Nat
  partnerId : String
  partnerName : String
  actionSpaceNames : List String
  persona : String
deriving DecidableEq

/-- The persona text the ChatAgent is constructed with (src lines
158-188); its first line, which is all the claims depend on, kept
verbatim. -/
def consiglierePersona : String :=
  "You are Consigliere, a data-driven crypto-finance advisor."

/-- Loop state: the `activeChats` map (an association list from sender
inbox id to chat, mutated only by `set` on miss and `delete` on finish)
plus the chat-creation counter. -/
structure LoopState where
  activeChats : List (String × Chat)
  nextChatId : Nat
deriving DecidableEq

/-- Oracles for the external collaborators one message's processing
consults: the agent's own inbox id, conversation resolution, whether
`createChat` succeeds, the policy engine's `chat.next` (an `error`
value is a rejected promise), and whether a given send succeeds. -/
structure Env where
  clientInboxId : String
  conversationFound : String → Bool
  createChatOk : Bool
  next : Chat → String → Except Unit ChatResponse
  sendOk : String → String → Bool

/-- How one message left the loop body: dropped by the self/non-text
filter, dropped for an unresolved conversation, the try block ran to
completion, the catch ran and the apology send succeeded, or the
apology send itself rejected, which nothing catches. -/
inductive StepOutcome where
  | skippedFilter : StepOutcome
  | skippedNoConversation : StepOutcome
  | processed : StepOutcome
  | recovered : StepOutcome
  | crashed : StepOutcome
deriving DecidableEq

/-- Result of processing one message: the new loop state, the sends that
were delivered (conversation id, text), the chat the message was fed to
(if any), and the outcome. -/
structure StepResult where
  state : LoopState
  sends : List (String × String)
  usedChat : Option Chat
  outcome : StepOutcome
deriving DecidableEq

/-- Character-wise lowercasing, embedding `toLowerCase()`. -/
def lowerStr (s : String) : String := ⟨s.data.map Char.toLower⟩

/-- The self/non-text filter of src lines 219-224:
`senderInboxId.toLowerCase() === client.inboxId.toLowerCase()` or a
content type other than text. -/
def ignoredMessage (env : Env) (m : XmtpMessage) : Bool :=
  (lowerStr m.senderInboxId == lowerStr env.clientInboxId)
    || (m.contentTypeId != "text")

/-- The get-or-create step of src lines 245-253: return the recorded
chat for the sender if present, otherwise call `createChat` (which may
reject, hence `Except`) and record the new chat under the sender. -/
def getOrCreateChat (env : Env) (s : LoopState) (p : String) :
    Except Unit (Chat × LoopState) :=
  match s.activeChats.lookup p with
  | some c => .ok (c, s)
  | none =>
    if env.createChatOk then
      let c : Chat :=
        { chatId := s.nextChatId, partnerId := p, partnerName := p
          actionSpaceNames := actionSpace.map (fun f => f.name)
          persona := consiglierePersona }
      .ok (c, { activeChats := (p, c) :: s.activeChats
                nextChatId := s.nextChatId + 1 })
    else .error ()

/-- The apology text of the catch block (src line 275). -/
def apologyText : String :=
  "Sorry, I encountered an error processing your message."

/-- The catch block of src lines 272-277: log, then send the apology on
the message's conversation. The send is awaited with no surrounding
try, so its rejection escapes the loop body (outcome `crashed`). -/
def applyCatch (env : Env) (s : LoopState) (m : XmtpMessage)
    (used : Option Chat) : StepResult :=
  if env.sendOk m.conversationId apologyText then
    { state := s, sends := [(m.conversationId, apologyText)]
      usedChat := used, outcome := .recovered }
  else
    { state := s, sends := [], usedChat := used, outcome := .crashed }

/-- The `activeChats.delete(senderInboxId)` of src line 270. -/
def deleteChat (s : LoopState) (p : String) : LoopState :=
  { activeChats := s.activeChats.filter (fun pc => pc.1 != p)
    nextChatId := s.nextChatId }

/-- The tail of the try block once `chat.next` has resolved with
`resp` (src lines 258-271): send the reply if one was produced (a
rejected send falls to the catch), then delete the chat exactly when
the response says finished — the delete only runs when the preceding
send, if any, succeeded. -/
def finishTurn (env : Env) (s1 : LoopState) (m : XmtpMessage)
    (chat : Chat) (resp : ChatResponse) : StepResult :=
  match resp.message with
  | some txt =>
    if env.sendOk m.conversationId txt then
      if resp.isFinished then
        { state := deleteChat s1 m.senderInboxId
          sends := [(m.conversationId, txt)]
          usedChat := some chat, outcome := .processed }
      else
        { state := s1, sends := [(m.conversationId, txt)]
          usedChat := some chat, outcome := .processed }
    else applyCatch env s1 m (some chat)
  | none =>
    if resp.isFinished then
      { state := deleteChat s1 m.senderInboxId, sends := []
        usedChat := some chat, outcome := .processed }
    else
      { state := s1, sends := [], usedChat := some chat
        outcome := .processed }

/-- The `await chat.next(userMessage)` of src line 256: a rejected
promise falls to the catch, a resolved decision continues the turn. -/
def runTurn (env : Env) (s1 : LoopState) (m : XmtpMessage)
    (chat : Chat) : StepResult :=
  match env.next chat m.content with
  | .error _ => applyCatch env s1 m (some chat)
  | .ok resp => finishTurn env s1 m chat resp

/-- The try block of src lines 243-271, in source order: get or create
the chat, then run the turn; a rejected `createChat` falls to the
catch. -/
def runTry (env : Env) (s : LoopState) (m : XmtpMessage) : StepResult :=
  match getOrCreateChat env s m.senderInboxId with
  | .error _ => applyCatch env s m none
  | .ok (chat, s1) => runTurn env s1 m chat

/-- The body of the `for await` loop of src lines 217-280 for one
message: filter, resolve the conversation, then the try/catch. -/
def processMessage (env : Env) (s : LoopState) (m : XmtpMessage) :
    StepResult :=
  if ignoredMessage env m then
    { state := s, sends := [], usedChat := none
      outcome := .skippedFilter }
  else if env.conversationFound m.conversationId then
    runTry env s m
  else
    { state := s, sends := [], usedChat := none
      outcome := .skippedNoConversation }

/-- Result of running the loop over a finite prefix of the stream. -/
structure LoopResult where
  state : LoopState
  sends : List (String × String)
  halted : Bool
deriving DecidableEq

/-- The ingest loop over a list of (environment, message) pairs: each
message is processed in order; an escaped exception (`crashed`) ends
the loop — `main` has no handler besides the final
`main().catch(console.error)` — leaving later messages unprocessed. -/
def runLoop : List (Env × XmtpMessage) → LoopState → LoopResult
  | [], s => { state := s, sends := [], halted := false }
  | (env, m) :: rest, s =>
    let r := processMessage env s m
    if r.outcome = .crashed then
      { state := r.state, sends := r.sends, halted := true }
    else
      let lr := runLoop rest r.state
      { state := lr.state, sends := r.sends ++ lr.sends
        halted := lr.halted }

/-- The session-registry invariant of the spec's data model: keys of
`activeChats` are pairwise distinct, so at most one session exists per
peer. -/
def keysNodup (s : LoopState) : Prop :=
  (s.activeChats.map Prod.fst).Nodup

/-- Every recorded chat was created at an earlier value of the creation
counter. -/
def chatIdsBounded (s : LoopState) : Prop :=
  ∀ pc ∈ s.activeChats, (pc : String × Chat).2.chatId < s.nextChatId


/-- Concrete handler environment with both backing services healthy. -/
def healthyHandlerEnv : HandlerEnv :=
  { echoFetch := fun _ => .ok ⟨true, 200, "OK", .ok "[\"echo\"]"⟩
    pulseFetch := fun _ => .ok ⟨true, 200, "OK", .ok "analysis"⟩ }

/-- Concrete handler environment whose rug-pull service answers 500. -/
def pulse500HandlerEnv : HandlerEnv :=
  { echoFetch := fun _ => .ok ⟨true, 200, "OK", .ok "[]"⟩
    pulseFetch := fun _ =>
      .ok ⟨false, 500, "Internal Server Error", .error "no body"⟩ }

/-- Concrete loop environment where every collaborator behaves. -/
def envFine : Env :=
  { clientInboxId := "agent"
    conversationFound := fun _ => true
    createChatOk := true
    next := fun _ _ => .ok ⟨none, some "reply", false⟩
    sendOk := fun _ _ => true }

/-- Concrete loop environment where `chat.next` rejects and every send
also rejects, so the catch block's apology send fails too. -/
def envCrash : Env :=
  { clientInboxId := "agent"
    conversationFound := fun _ => true
    createChatOk := true
    next := fun _ _ => .error ()
    sendOk := fun _ _ => false }

/-- Concrete loop environment where `chat.next` rejects but sends
succeed, so the apology is delivered. -/
def envAdvanceFail : Env :=
  { clientInboxId := "agent"
    conversationFound := fun _ => true
    createChatOk := true
    next := fun _ _ => .error ()
    sendOk := fun _ _ => true }

/-- Concrete loop environment that cannot resolve any conversation. -/
def envNoConv : Env :=
  { clientInboxId := "agent"
    conversationFound := fun _ => false
    createChatOk := true
    next := fun _ _ => .ok ⟨none, none, false⟩
    sendOk := fun _ _ => true }

/-- Response that carries a reply text and says the chat is finished. -/
def respBye : ChatResponse := ⟨none, some "bye", true⟩

/-- Concrete loop environment whose policy finishes the chat with a
reply, but where sending that reply rejects while sending the apology
succeeds. -/
def envFinishSendFail : Env :=
  { clientInboxId := "agent"
    conversationFound := fun _ => true
    createChatOk := true
    next := fun _ _ => .ok respBye
    sendOk := fun _ txt => txt == apologyText }

/-- A text message from peerA in conversation convA. -/
def msgA : XmtpMessage := ⟨"convA", "peerA", "text", "hello"⟩

/-- A second text message from peerA, sent in another conversation. -/
def msgA2 : XmtpMessage := ⟨"convB", "peerA", "text", "yo"⟩

/-- A text message from peerB in conversation convB. -/
def msgB : XmtpMessage := ⟨"convB", "peerB", "text", "hello"⟩

/-- A non-text (attachment) message from peerA. -/
def msgImage : XmtpMessage := ⟨"convA", "peerA", "image", "blob"⟩

/-- The empty loop state the loop starts from (src line 215). -/
def s0 : LoopState := ⟨[], 0⟩

/-- The chat created for peerA from `s0`. -/
def chat0 : Chat :=
  ⟨0, "peerA", "peerA", actionSpace.map (fun f => f.name),
    consiglierePersona⟩

/-- Loop state holding peerA's live chat. -/
def sPeerA : LoopState := ⟨[("peerA", chat0)], 1⟩

theorem lookup_cons_self (l : List (String × Chat)) (p : String) (c : Chat) :
    ((p, c) :: l).lookup p = some c := by
  simp [List.lookup]

theorem lookup_filter_ne_self (l : List (String × Chat)) (p : String) :
    (l.filter (fun pc => pc.1 != p)).lookup p = none := by
  induction l with
  | nil => rfl
  | cons a t ih =>
    by_cases h : a.1 = p
    · simpa [List.filter_cons, h] using ih
    · have hb : (a.1 != p) = true := by simp [h]
      have hb2 : (p == a.1) = false := by
        simp [show p ≠ a.1 from fun e => h e.symm]
      simp [List.filter_cons, hb, List.lookup, hb2, ih]

theorem lookup_none_not_key {l : List (String × Chat)} {p : String}
    (h : l.lookup p = none) : p ∉ l.map Prod.fst := by
  induction l with
  | nil => simp
  | cons a t ih =>
    simp only [List.lookup] at h
    by_cases hp : p = a.1
    · rw [show (p == a.1) = true by simp [hp]] at h
      exact absurd h (by simp)
    · rw [show (p == a.1) = false by simp [hp]] at h
      simp only [List.map_cons, List.mem_cons]
      exact fun hmem => hmem.elim hp (ih h)

theorem applyCatch_state (env : Env) (s : LoopState) (m : XmtpMessage)
    (u : Option Chat) : (applyCatch env s m u).state = s := by
  unfold applyCatch; split <;> rfl

theorem applyCatch_usedChat (env : Env) (s : LoopState) (m : XmtpMessage)
    (u : Option Chat) : (applyCatch env s m u).usedChat = u := by
  unfold applyCatch; split <;> rfl

theorem applyCatch_sends_conv (env : Env) (s : LoopState)
    (m : XmtpMessage) (u : Option Chat) :
    ∀ x ∈ (applyCatch env s m u).sends, x.1 = m.conversationId := by
  unfold applyCatch; split <;> simp

theorem applyCatch_apologyOk {env : Env} {s : LoopState} {m : XmtpMessage}
    (u : Option Chat) (h : env.sendOk m.conversationId apologyText = true) :
    applyCatch env s m u =
      { state := s, sends := [(m.conversationId, apologyText)]
        usedChat := u, outcome := .recovered } := by
  simp [applyCatch, h]

theorem applyCatch_apologyFail {env : Env} {s : LoopState}
    {m : XmtpMessage} (u : Option Chat)
    (h : env.sendOk m.conversationId apologyText = false) :
    applyCatch env s m u =
      { state := s, sends := [], usedChat := u, outcome := .crashed } := by
  simp [applyCatch, h]

theorem processMessage_ignored {env : Env} {s : LoopState}
    {m : XmtpMessage} (hi : ignoredMessage env m = true) :
    processMessage env s m =
      { state := s, sends := [], usedChat := none
        outcome := .skippedFilter } := by
  simp [processMessage, hi]

theorem processMessage_noConversation {env : Env} {s : LoopState}
    {m : XmtpMessage} (hi : ignoredMessage env m = false)
    (hc : env.conversationFound m.conversationId = false) :
    processMessage env s m =
      { state := s, sends := [], usedChat := none
        outcome := .skippedNoConversation } := by
  simp [processMessage, hi, hc]

theorem processMessage_try {env : Env} {s : LoopState} {m : XmtpMessage}
    (hi : ignoredMessage env m = false)
    (hc : env.conversationFound m.conversationId = true) :
    processMessage env s m = runTry env s m := by
  simp [processMessage, hi, hc]

theorem runTry_createFail {env : Env} {s : LoopState} {m : XmtpMessage}
    {e : Unit} (hg : getOrCreateChat env s m.senderInboxId = .error e) :
    runTry env s m = applyCatch env s m none := by
  unfold runTry; rw [hg]

theorem runTry_ok {env : Env} {s : LoopState} {m : XmtpMessage}
    {chat : Chat} {s1 : LoopState}
    (hg : getOrCreateChat env s m.senderInboxId = .ok (chat, s1)) :
    runTry env s m = runTurn env s1 m chat := by
  unfold runTry; rw [hg]

theorem runTurn_nextFail {env : Env} {s1 : LoopState} {m : XmtpMessage}
    {chat : Chat} {e : Unit} (hn : env.next chat m.content = .error e) :
    runTurn env s1 m chat = applyCatch env s1 m (some chat) := by
  unfold runTurn; rw [hn]

theorem runTurn_okResp {env : Env} {s1 : LoopState} {m : XmtpMessage}
    {chat : Chat} {resp : ChatResponse}
    (hn : env.next chat m.content = .ok resp) :
    runTurn env s1 m chat = finishTurn env s1 m chat resp := by
  unfold runTurn; rw [hn]

theorem getOrCreate_existing {env : Env} {s : LoopState} {p : String}
    {c : Chat} (h : s.activeChats.lookup p = some c) :
    getOrCreateChat env s p = .ok (c, s) := by
  unfold getOrCreateChat
  rw [h]

theorem getOrCreate_new {env : Env} {s : LoopState} {p : String}
    (hl : s.activeChats.lookup p = none) (hc : env.createChatOk = true) :
    getOrCreateChat env s p =
      .ok (⟨s.nextChatId, p, p, actionSpace.map (fun f => f.name),
            consiglierePersona⟩,
        { activeChats :=
            (p, ⟨s.nextChatId, p, p, actionSpace.map (fun f => f.name),
              consiglierePersona⟩) :: s.activeChats
          nextChatId := s.nextChatId + 1 }) := by
  simp [getOrCreateChat, hl, hc]

theorem getOrCreate_lookup {env : Env} {s : LoopState} {p : String}
    {c : Chat} {s1 : LoopState}
    (h : getOrCreateChat env s p = .ok (c, s1)) :
    s1.activeChats.lookup p = some c := by
  unfold getOrCreateChat at h
  cases hl : s.activeChats.lookup p with
  | some c0 =>
    rw [hl] at h
    cases h
    exact hl
  | none =>
    rw [hl] at h
    by_cases hc : env.createChatOk
    · rw [if_pos hc] at h
      cases h
      exact lookup_cons_self _ _ _
    · rw [if_neg hc] at h
      cases h

theorem getOrCreate_keysNodup {env : Env} {s : LoopState} {p : String}
    {c : Chat} {s1 : LoopState} (hnd : keysNodup s)
    (h : getOrCreateChat env s p = .ok (c, s1)) : keysNodup s1 := by
  unfold getOrCreateChat at h
  cases hl : s.activeChats.lookup p with
  | some c0 =>
    rw [hl] at h
    cases h
    exact hnd
  | none =>
    rw [hl] at h
    by_cases hc : env.createChatOk
    · rw [if_pos hc] at h
      cases h
      exact List.Nodup.cons (lookup_none_not_key hl) hnd
    · rw [if_neg hc] at h
      cases h

theorem getOrCreate_chatIdsBounded {env : Env} {s : LoopState}
    {p : String} {c : Chat} {s1 : LoopState} (hb : chatIdsBounded s)
    (h : getOrCreateChat env s p = .ok (c, s1)) : chatIdsBounded s1 := by
  unfold getOrCreateChat at h
  cases hl : s.activeChats.lookup p with
  | some c0 =>
    rw [hl] at h
    cases h
    exact hb
  | none =>
    rw [hl] at h
    by_cases hc : env.createChatOk
    · rw [if_pos hc] at h
      cases h
      intro pc hpc
      rcases List.mem_cons.mp hpc with rfl | hmem
      · exact Nat.lt_succ_self _
      · exact Nat.lt_succ_of_lt (hb pc hmem)
    · rw [if_neg hc] at h
      cases h

theorem deleteChat_keysNodup (s : LoopState) (p : String)
    (hnd : keysNodup s) : keysNodup (deleteChat s p) :=
  List.Nodup.sublist (List.Sublist.map Prod.fst (List.filter_sublist _))
    hnd

theorem deleteChat_chatIdsBounded (s : LoopState) (p : String)
    (hb : chatIdsBounded s) : chatIdsBounded (deleteChat s p) := by
  intro pc hpc
  exact hb pc (List.mem_of_mem_filter hpc)

theorem runTurn_state_cases (env : Env) (s1 : LoopState)
    (m : XmtpMessage) (chat : Chat) :
    (runTurn env s1 m chat).state = s1 ∨
      (runTurn env s1 m chat).state = deleteChat s1 m.senderInboxId := by
  cases hn : env.next chat m.content with
  | error e =>
    rw [runTurn_nextFail hn]
    left
    exact applyCatch_state env s1 m (some chat)
  | ok resp =>
    rw [runTurn_okResp hn]
    cases hm : resp.message with
    | some txt =>
      by_cases hs : env.sendOk m.conversationId txt = true
      · by_cases hf : resp.isFinished = true
        · right; simp [finishTurn, hm, hs, hf]
        · left; simp [finishTurn, hm, hs, hf]
      · left
        have hs' : env.sendOk m.conversationId txt = false := by
          simpa using hs
        simpa [finishTurn, hm, hs'] using
          applyCatch_state env s1 m (some chat)
    | none =>
      by_cases hf : resp.isFinished = true
      · right; simp [finishTurn, hm, hf]
      · left; simp [finishTurn, hm, hf]

theorem runTurn_usedChat (env : Env) (s1 : LoopState) (m : XmtpMessage)
    (chat : Chat) : (runTurn env s1 m chat).usedChat = some chat := by
  cases hn : env.next chat m.content with
  | error e =>
    rw [runTurn_nextFail hn]
    exact applyCatch_usedChat env s1 m (some chat)
  | ok resp =>
    rw [runTurn_okResp hn]
    cases hm : resp.message with
    | some txt =>
      by_cases hs : env.sendOk m.conversationId txt = true
      · by_cases hf : resp.isFinished = true <;>
          simp [finishTurn, hm, hs, hf]
      · have hs' : env.sendOk m.conversationId txt = false := by
          simpa using hs
        simpa [finishTurn, hm, hs'] using
          applyCatch_usedChat env s1 m (some chat)
    | none =>
      by_cases hf : resp.isFinished = true <;> simp [finishTurn, hm, hf]

theorem runTurn_sends_conv (env : Env) (s1 : LoopState)
    (m : XmtpMessage) (chat : Chat) :
    ∀ x ∈ (runTurn env s1 m chat).sends, x.1 = m.conversationId := by
  cases hn : env.next chat m.content with
  | error e =>
    rw [runTurn_nextFail hn]
    exact applyCatch_sends_conv env s1 m (some chat)
  | ok resp =>
    rw [runTurn_okResp hn]
    cases hm : resp.message with
    | some txt =>
      by_cases hs : env.sendOk m.conversationId txt = true
      · by_cases hf : resp.isFinished = true <;>
          simp [finishTurn, hm, hs, hf]
      · have hs' : env.sendOk m.conversationId txt = false := by
          simpa using hs
        simpa [finishTurn, hm, hs'] using
          applyCatch_sends_conv env s1 m (some chat)
    | none =>
      by_cases hf : resp.isFinished = true <;> simp [finishTurn, hm, hf]

theorem runTry_keysNodup (env : Env) (s : LoopState) (m : XmtpMessage)
    (hnd : keysNodup s) : keysNodup (runTry env s m).state := by
  cases hg : getOrCreateChat env s m.senderInboxId with
  | error e =>
    rw [runTry_createFail hg, applyCatch_state]
    exact hnd
  | ok cs =>
    obtain ⟨chat, s1⟩ := cs
    rw [runTry_ok hg]
    have hnd1 := getOrCreate_keysNodup hnd hg
    rcases runTurn_state_cases env s1 m chat with h | h <;> rw [h]
    · exact hnd1
    · exact deleteChat_keysNodup _ _ hnd1

theorem processMessage_keysNodup (env : Env) (s : LoopState)
    (m : XmtpMessage) (hnd : keysNodup s) :
    keysNodup (processMessage env s m).state := by
  by_cases hi : ignoredMessage env m = true
  · rw [processMessage_ignored hi]; exact hnd
  have hi' : ignoredMessage env m = false := by simpa using hi
  by_cases hc : env.conversationFound m.conversationId = true
  · rw [processMessage_try hi' hc]
    exact runTry_keysNodup env s m hnd
  · have hc' : env.conversationFound m.conversationId = false := by
      simpa using hc
    rw [processMessage_noConversation hi' hc']
    exact hnd

theorem runTry_chatIdsBounded (env : Env) (s : LoopState)
    (m : XmtpMessage) (hb : chatIdsBounded s) :
    chatIdsBounded (runTry env s m).state := by
  cases hg : getOrCreateChat env s m.senderInboxId with
  | error e =>
    rw [runTry_createFail hg, applyCatch_state]
    exact hb
  | ok cs =>
    obtain ⟨chat, s1⟩ := cs
    rw [runTry_ok hg]
    have hb1 := getOrCreate_chatIdsBounded hb hg
    rcases runTurn_state_cases env s1 m chat with h | h <;> rw [h]
    · exact hb1
    · exact deleteChat_chatIdsBounded _ _ hb1

theorem processMessage_chatIdsBounded (env : Env) (s : LoopState)
    (m : XmtpMessage) (hb : chatIdsBounded s) :
    chatIdsBounded (processMessage env s m).state := by
  by_cases hi : ignoredMessage env m = true
  · rw [processMessage_ignored hi]; exact hb
  have hi' : ignoredMessage env m = false := by simpa using hi
  by_cases hc : env.conversationFound m.conversationId = true
  · rw [processMessage_try hi' hc]
    exact runTry_chatIdsBounded env s m hb
  · have hc' : env.conversationFound m.conversationId = false := by
      simpa using hc
    rw [processMessage_noConversation hi' hc']
    exact hb

theorem processMessage_sends_conv (env : Env) (s : LoopState)
    (m : XmtpMessage) :
    ∀ x ∈ (processMessage env s m).sends, x.1 = m.conversationId := by
  by_cases hi : ignoredMessage env m = true
  · simp [processMessage_ignored hi]
  have hi' : ignoredMessage env m = false := by simpa using hi
  by_cases hc : env.conversationFound m.conversationId = true
  · rw [processMessage_try hi' hc]
    cases hg : getOrCreateChat env s m.senderInboxId with
    | error e =>
      rw [runTry_createFail hg]
      exact applyCatch_sends_conv env s m none
    | ok cs =>
      obtain ⟨chat, s1⟩ := cs
      rw [runTry_ok hg]
      exact runTurn_sends_conv env s1 m chat
  · have hc' : env.conversationFound m.conversationId = false := by
      simpa using hc
    simp [processMessage_noConversation hi' hc']

/-- C7: a message whose sender is the agent itself, or whose content
kind is not text, is discarded by the filter at the top of the loop
body: the registry and counter are untouched, nothing is sent, no chat
is consulted, and no fault is possible on this path. -/
theorem c7_filter_discard (env : Env) (s : LoopState) (m : XmtpMessage)
    (h : lowerStr m.senderInboxId = lowerStr env.clientInboxId ∨
      m.contentTypeId ≠ "text") :
    processMessage env s m =
      { state := s, sends := [], usedChat := none
        outcome := .skippedFilter } := by
  apply processMessage_ignored
  simp only [ignoredMessage, Bool.or_eq_true, beq_iff_eq, bne_iff_ne]
  exact h

/-- Witness for C7 at a concrete non-text message. -/
theorem c7_filter_discard_witness :
    processMessage envFine s0 msgImage =
      { state := s0, sends := [], usedChat := none
        outcome := .skippedFilter } :=
  c7_filter_discard envFine s0 msgImage (Or.inr (by decide))

/-- C8: a text message whose conversation the transport cannot resolve
is logged and dropped before the try block: the registry is untouched,
nothing is sent, and the loop goes on to the remaining messages exactly
as if the message had not arrived. -/
theorem c8_unresolved_conversation_discard (env : Env) (s : LoopState)
    (m : XmtpMessage) (rest : List (Env × XmtpMessage))
    (hi : ignoredMessage env m = false)
    (hc : env.conversationFound m.conversationId = false) :
    processMessage env s m =
      { state := s, sends := [], usedChat := none
        outcome := .skippedNoConversation } ∧
    runLoop ((env, m) :: rest) s = runLoop rest s := by
  have h1 := processMessage_noConversation (s := s) hi hc
  refine ⟨h1, ?_⟩
  simp [runLoop, h1]

/-- Witness for C8 at a concrete unresolvable message. -/
theorem c8_unresolved_conversation_discard_witness :
    (processMessage envNoConv s0 msgA =
      { state := s0, sends := [], usedChat := none
        outcome := .skippedNoConversation }) ∧
    runLoop [(envNoConv, msgA)] s0 = runLoop [] s0 :=
  c8_unresolved_conversation_discard envNoConv s0 msgA [] (by decide) rfl

/-- C4: when `chat.next` rejects for a peer whose session is already
recorded, the catch block runs but never touches the registry: the loop
state is exactly what it was, the faulting message was fed to the
recorded chat, and that chat is still recorded under the peer, so the
peer's next message will reuse it. -/
theorem c4_advance_fault_keeps_session (env : Env) (s : LoopState)
    (m : XmtpMessage) (chat : Chat)
    (hi : ignoredMessage env m = false)
    (hc : env.conversationFound m.conversationId = true)
    (hchat : s.activeChats.lookup m.senderInboxId = some chat)
    (hn : env.next chat m.content = .error ()) :
    (processMessage env s m).state = s ∧
    (processMessage env s m).usedChat = some chat ∧
    (processMessage env s m).state.activeChats.lookup m.senderInboxId =
      some chat := by
  have he : processMessage env s m = applyCatch env s m (some chat) := by
    rw [processMessage_try hi hc, runTry_ok (getOrCreate_existing hchat),
      runTurn_nextFail hn]
  rw [he, applyCatch_state, applyCatch_usedChat]
  exact ⟨rfl, rfl, hchat⟩

/-- Witness for C4: a rejected advance for peerA's live session. -/
theorem c4_advance_fault_keeps_session_witness :
    (processMessage envAdvanceFail sPeerA msgA).state = sPeerA ∧
    (processMessage envAdvanceFail sPeerA msgA).usedChat = some chat0 ∧
    (processMessage envAdvanceFail sPeerA
        msgA).state.activeChats.lookup msgA.senderInboxId = some chat0 :=
  c4_advance_fault_keeps_session envAdvanceFail sPeerA msgA chat0
    (by decide) rfl rfl rfl

/-- C9: sessions are keyed solely by the sender's inbox id: any message
from a peer with a live session is fed to that one session regardless
of which conversation carries it, and every reply of a turn goes out on
the conversation of the message that triggered the turn, not one fixed
at session creation. -/
theorem c9_sessions_keyed_by_peer (e1 e2 : Env) (s : LoopState)
    (m1 m2 : XmtpMessage) (chat : Chat)
    (hp : m2.senderInboxId = m1.senderInboxId)
    (hchat : s.activeChats.lookup m1.senderInboxId = some chat)
    (hi1 : ignoredMessage e1 m1 = false)
    (hc1 : e1.conversationFound m1.conversationId = true)
    (hlive : (processMessage e1 s
        m1).state.activeChats.lookup m1.senderInboxId = some chat)
    (hi2 : ignoredMessage e2 m2 = false)
    (hc2 : e2.conversationFound m2.conversationId = true) :
    (processMessage e1 s m1).usedChat = some chat ∧
    (processMessage e2 (processMessage e1 s m1).state m2).usedChat =
      some chat ∧
    (∀ x ∈ (processMessage e1 s m1).sends, x.1 = m1.conversationId) ∧
    (∀ x ∈ (processMessage e2 (processMessage e1 s m1).state m2).sends,
      x.1 = m2.conversationId) := by
  have hlive2 : (processMessage e1 s
      m1).state.activeChats.lookup m2.senderInboxId = some chat := by
    rw [hp]; exact hlive
  refine ⟨?_, ?_, processMessage_sends_conv e1 s m1,
    processMessage_sends_conv e2 _ m2⟩
  · rw [processMessage_try hi1 hc1, runTry_ok (getOrCreate_existing hchat)]
    exact runTurn_usedChat e1 s m1 chat
  · rw [processMessage_try hi2 hc2,
      runTry_ok (getOrCreate_existing hlive2)]
    exact runTurn_usedChat e2 _ m2 chat

/-- Witness for C9: peerA's live session receives a message in convA
and then one in convB. -/
theorem c9_sessions_keyed_by_peer_witness :
    (processMessage envFine sPeerA msgA).usedChat = some chat0 ∧
    (processMessage envFine (processMessage envFine sPeerA msgA).state
      msgA2).usedChat = some chat0 ∧
    (∀ x ∈ (processMessage envFine sPeerA msgA).sends,
      x.1 = msgA.conversationId) ∧
    (∀ x ∈ (processMessage envFine (processMessage envFine sPeerA
        msgA).state msgA2).sends, x.1 = msgA2.conversationId) :=
  c9_sessions_keyed_by_peer envFine envFine sPeerA msgA msgA2 chat0
    rfl rfl (by decide) rfl (by decide) (by decide) rfl

/-- C3: the session registry holds at most one session per peer: the
registry's keys stay pairwise distinct across any loop step, looking a
recorded peer up hands back the recorded session with no state change,
and a missing peer gets exactly one new session, bound to the declared
action space and the agent's persona and recorded under that peer. -/
theorem c3_at_most_one_session (env : Env) (s : LoopState)
    (m : XmtpMessage) (p : String) (hnd : keysNodup s) :
    keysNodup (processMessage env s m).state ∧
    (∀ c, s.activeChats.lookup p = some c →
      getOrCreateChat env s p = .ok (c, s)) ∧
    (s.activeChats.lookup p = none → env.createChatOk = true →
      getOrCreateChat env s p =
        .ok (⟨s.nextChatId, p, p, actionSpace.map (fun f => f.name),
              consiglierePersona⟩,
          { activeChats := (p, ⟨s.nextChatId, p, p,
              actionSpace.map (fun f => f.name), consiglierePersona⟩) ::
              s.activeChats
            nextChatId := s.nextChatId + 1 })) :=
  ⟨processMessage_keysNodup env s m hnd,
    fun _ h => getOrCreate_existing h,
    fun h1 h2 => getOrCreate_new h1 h2⟩

/-- Witness for C3 at peerA's one-session registry and peerB absent. -/
theorem c3_at_most_one_session_witness :
    keysNodup (processMessage envFine sPeerA msgA).state ∧
    (∀ c, sPeerA.activeChats.lookup "peerB" = some c →
      getOrCreateChat envFine sPeerA "peerB" = .ok (c, sPeerA)) ∧
    (sPeerA.activeChats.lookup "peerB" = none →
      envFine.createChatOk = true →
      getOrCreateChat envFine sPeerA "peerB" =
        .ok (⟨sPeerA.nextChatId, "peerB", "peerB",
              actionSpace.map (fun f => f.name), consiglierePersona⟩,
          { activeChats := ("peerB", ⟨sPeerA.nextChatId, "peerB",
              "peerB", actionSpace.map (fun f => f.name),
              consiglierePersona⟩) :: sPeerA.activeChats
            nextChatId := sPeerA.nextChatId + 1 })) :=
  c3_at_most_one_session envFine sPeerA msgA "peerB"
    (by unfold keysNodup; decide)

theorem getOrCreate_fresh {env : Env} {s : LoopState} {p : String}
    {chat : Chat} {s1 : LoopState}
    (hg : getOrCreateChat env s p = .ok (chat, s1))
    (hnone : s.activeChats.lookup p = none) :
    chat.chatId = s.nextChatId := by
  unfold getOrCreateChat at hg
  rw [hnone] at hg
  by_cases hc : env.createChatOk
  · rw [if_pos hc] at hg
    cases hg
    rfl
  · rw [if_neg hc] at hg
    cases hg

/-- C1 as amended: for a message that reaches the try block, whenever
any of the loop's steps 3-6 faults — the session creation rejects,
`chat.next` rejects (whether the session pre-existed or was created
for this very message), or the reply send rejects (removal, a Map
delete, cannot fault) — the catch block delivers exactly one apology
reply on that message's conversation, provided the apology send itself
succeeds, and the loop then processes the remaining messages exactly
as it would have from the post-catch state; the original claim's
further assertion that a failing apology send is swallowed is refuted
by `c1_apology_swallowed_counterexample`. -/
theorem c1_fault_apology_continue (env : Env) (s : LoopState)
    (m : XmtpMessage) (rest : List (Env × XmtpMessage))
    (hi : ignoredMessage env m = false)
    (hc : env.conversationFound m.conversationId = true)
    (hfault :
      (∃ e, getOrCreateChat env s m.senderInboxId = .error e) ∨
      ∃ chat s1,
        getOrCreateChat env s m.senderInboxId = .ok (chat, s1) ∧
        (env.next chat m.content = .error () ∨
          ∃ resp txt, env.next chat m.content = .ok resp ∧
            resp.message = some txt ∧
            env.sendOk m.conversationId txt = false))
    (ha : env.sendOk m.conversationId apologyText = true) :
    (processMessage env s m).sends = [(m.conversationId, apologyText)] ∧
    (processMessage env s m).outcome = .recovered ∧
    runLoop ((env, m) :: rest) s =
      { state := (runLoop rest (processMessage env s m).state).state
        sends := (m.conversationId, apologyText) ::
          (runLoop rest (processMessage env s m).state).sends
        halted :=
          (runLoop rest (processMessage env s m).state).halted } := by
  have he : ∃ s' u, processMessage env s m =
      { state := s', sends := [(m.conversationId, apologyText)]
        usedChat := u, outcome := .recovered } := by
    rcases hfault with ⟨e, hg⟩ | ⟨chat, s1, hg, hsub⟩
    · exact ⟨s, none, by
        rw [processMessage_try hi hc, runTry_createFail hg,
          applyCatch_apologyOk _ ha]⟩
    · rcases hsub with hn | ⟨resp, txt, hn, hm, hs⟩
      · exact ⟨s1, some chat, by
          rw [processMessage_try hi hc, runTry_ok hg,
            runTurn_nextFail hn, applyCatch_apologyOk _ ha]⟩
      · refine ⟨s1, some chat, ?_⟩
        rw [processMessage_try hi hc, runTry_ok hg, runTurn_okResp hn]
        have hft : finishTurn env s1 m chat resp =
            applyCatch env s1 m (some chat) := by
          simp [finishTurn, hm, hs]
        rw [hft, applyCatch_apologyOk _ ha]
  obtain ⟨s', u, he⟩ := he
  rw [he]
  refine ⟨rfl, rfl, ?_⟩
  simp [runLoop, he]

/-- Witness for C1's amended theorem: a rejected advance for peerA with
a working transport and no further messages, discharging the fault
hypothesis at the advance locus. -/
theorem c1_fault_apology_continue_witness :
    (processMessage envAdvanceFail sPeerA msgA).sends =
      [(msgA.conversationId, apologyText)] ∧
    (processMessage envAdvanceFail sPeerA msgA).outcome = .recovered ∧
    runLoop [(envAdvanceFail, msgA)] sPeerA =
      { state := (runLoop []
          (processMessage envAdvanceFail sPeerA msgA).state).state
        sends := (msgA.conversationId, apologyText) ::
          (runLoop []
            (processMessage envAdvanceFail sPeerA msgA).state).sends
        halted := (runLoop []
          (processMessage envAdvanceFail sPeerA msgA).state).halted } :=
  c1_fault_apology_continue envAdvanceFail sPeerA msgA []
    (by decide) rfl
    (Or.inr ⟨chat0, sPeerA, rfl, Or.inl rfl⟩) rfl

/-- Counterexample to C1 as stated: with `chat.next` rejecting and every
send rejecting, the apology send's rejection is not swallowed — the
exception escapes the loop body, the loop halts with nothing delivered,
and the next message (which a healthy loop would answer with a reply,
as the last conjunct shows) is never processed. -/
theorem c1_apology_swallowed_counterexample :
    (processMessage envCrash s0 msgA).outcome = .crashed ∧
    (runLoop [(envCrash, msgA), (envFine, msgB)] s0).halted = true ∧
    (runLoop [(envCrash, msgA), (envFine, msgB)] s0).sends = [] ∧
    (runLoop [(envFine, msgB)] s0).sends = [("convB", "reply")] := by
  refine ⟨by decide, by decide, by decide, by decide⟩

/-- C2 as amended: for a message that reaches the try block, the peer's
session is removed from the registry exactly when the turn's response
reports finished AND the rest of the turn completes without a fault —
in particular the reply send, if a reply was produced, succeeds; the
original claim's "exactly when finished = true" is refuted by
`c2_finished_not_removed_counterexample`, where a finished response
whose reply send rejects leaves the session recorded. Removal is
otherwise never performed, a removed peer's next message creates a
brand-new chat (fresh `chatId`, distinct from every chat recorded
before the turn), and the creation-counter bound is preserved by every
step. -/
theorem c2_removal_iff_finished_turn_completes (env : Env)
    (s : LoopState) (m : XmtpMessage) (chat : Chat) (s1 : LoopState)
    (hi : ignoredMessage env m = false)
    (hc : env.conversationFound m.conversationId = true)
    (hg : getOrCreateChat env s m.senderInboxId = .ok (chat, s1)) :
    ((processMessage env s m).state.activeChats.lookup m.senderInboxId =
        none ↔
      ∃ resp, env.next chat m.content = .ok resp ∧
        resp.isFinished = true ∧
        ∀ txt, resp.message = some txt →
          env.sendOk m.conversationId txt = true) ∧
    (s.activeChats.lookup m.senderInboxId = none →
      chatIdsBounded s →
      chat.chatId ∉ s.activeChats.map
        (fun pc => (pc : String × Chat).2.chatId)) ∧
    (chatIdsBounded s → chatIdsBounded (processMessage env s m).state) := by
  have hl1 : s1.activeChats.lookup m.senderInboxId = some chat :=
    getOrCreate_lookup hg
  refine ⟨?_, ?_, processMessage_chatIdsBounded env s m⟩
  · rw [processMessage_try hi hc, runTry_ok hg]
    constructor
    · intro h
      cases hn : env.next chat m.content with
      | error e =>
        rw [runTurn_nextFail hn, applyCatch_state] at h
        simp [hl1] at h
      | ok resp =>
        rw [runTurn_okResp hn] at h
        cases hm : resp.message with
        | some txt =>
          by_cases hs : env.sendOk m.conversationId txt = true
          · by_cases hf : resp.isFinished = true
            · exact ⟨resp, rfl, hf, fun t ht => by
                rw [hm] at ht; cases ht; exact hs⟩
            · have hf' : resp.isFinished = false := by simpa using hf
              simp [finishTurn, hm, hs, hf', hl1] at h
          · have hs' : env.sendOk m.conversationId txt = false := by
              simpa using hs
            rw [show finishTurn env s1 m chat resp =
                applyCatch env s1 m (some chat) by
              simp [finishTurn, hm, hs'], applyCatch_state] at h
            simp [hl1] at h
        | none =>
          by_cases hf : resp.isFinished = true
          · exact ⟨resp, rfl, hf, fun t ht => by rw [hm] at ht; cases ht⟩
          · have hf' : resp.isFinished = false := by simpa using hf
            simp [finishTurn, hm, hf', hl1] at h
    · rintro ⟨resp, hn, hf, hsend⟩
      rw [runTurn_okResp hn]
      cases hm : resp.message with
      | some txt =>
        have hs := hsend txt hm
        have : finishTurn env s1 m chat resp =
            { state := deleteChat s1 m.senderInboxId
              sends := [(m.conversationId, txt)]
              usedChat := some chat, outcome := .processed } := by
          simp [finishTurn, hm, hs, hf]
        rw [this]
        exact lookup_filter_ne_self _ _
      | none =>
        have : finishTurn env s1 m chat resp =
            { state := deleteChat s1 m.senderInboxId, sends := []
              usedChat := some chat, outcome := .processed } := by
          simp [finishTurn, hm, hf]
        rw [this]
        exact lookup_filter_ne_self _ _
  · intro hnone hb hmem
    rw [List.mem_map] at hmem
    obtain ⟨pc, hpc, heq⟩ := hmem
    have hlt := hb pc hpc
    rw [heq, getOrCreate_fresh hg hnone] at hlt
    exact lt_irrefl _ hlt

/-- Witness for C2's amended theorem: peerA's live session, a healthy
environment whose policy does not finish the chat. -/
theorem c2_removal_iff_finished_turn_completes_witness :
    ((processMessage envFine sPeerA
        msgA).state.activeChats.lookup msgA.senderInboxId = none ↔
      ∃ resp, envFine.next chat0 msgA.content = .ok resp ∧
        resp.isFinished = true ∧
        ∀ txt, resp.message = some txt →
          envFine.sendOk msgA.conversationId txt = true) ∧
    (sPeerA.activeChats.lookup msgA.senderInboxId = none →
      chatIdsBounded sPeerA →
      chat0.chatId ∉ sPeerA.activeChats.map
        (fun pc => (pc : String × Chat).2.chatId)) ∧
    (chatIdsBounded sPeerA →
      chatIdsBounded (processMessage envFine sPeerA msgA).state) :=
  c2_removal_iff_finished_turn_completes envFine sPeerA msgA chat0
    sPeerA (by decide) rfl rfl

/-- Counterexample to C2 as stated: the policy reports finished = true
for peerA's turn, but the reply send rejects (only the apology goes
through), so the session is NOT removed even though that turn's
response reported finished. -/
theorem c2_finished_not_removed_counterexample :
    envFinishSendFail.next chat0 msgA.content = .ok respBye ∧
    respBye.isFinished = true ∧
    (processMessage envFinishSendFail sPeerA msgA).outcome =
      .recovered ∧
    (processMessage envFinishSendFail sPeerA
        msgA).state.activeChats.lookup msgA.senderInboxId =
      some chat0 := by
  refine ⟨rfl, rfl, by decide, by decide⟩

theorem fetch_bitcoin_prediction_exec_done {env : HandlerEnv}
    {v : Option Int} {r : HttpResponse} {payload : String}
    (hfetch : env.echoFetch v = .ok r) (hok : r.ok = true)
    (hjson : r.json = .ok payload) (args : List (String × JsValue))
    (ha : (args.lookup "amount").bind jsNum = v) :
    fetch_bitcoin_prediction_exec env args = ⟨.Done, payload⟩ := by
  unfold fetch_bitcoin_prediction_exec
  rw [ha, hfetch]
  simp [hok, hjson]

theorem detect_rug_pull_exec_httpError {env : HandlerEnv}
    {v : Option String} {r : HttpResponse}
    (hfetch : env.pulseFetch v = .ok r) (hok : r.ok = false)
    (args : List (String × JsValue))
    (ha : (args.lookup "token_address").bind jsStr = v) :
    detect_rug_pull_exec env args =
      ⟨.Failed, "Failed to detect rug pull: API returned "
        ++ toString r.status ++ " " ++ r.statusText⟩ := by
  unfold detect_rug_pull_exec
  rw [ha, hfetch]
  simp [hok]

/-- C5: dispatching fetch_bitcoin_prediction with amount 0 or 11 is
rejected by validation against the declared 1-10 bounds — Failed naming
`amount`, for every handler environment, so the handler is never
consulted — while amount 5 against a healthy echo service returns Done
carrying the service's payload. -/
theorem c5_fetch_bitcoin_prediction_bounds (env : HandlerEnv)
    (r : HttpResponse) (payload : String)
    (hfetch : env.echoFetch (some 5) = .ok r) (hok : r.ok = true)
    (hjson : r.json = .ok payload) :
    (∀ e : HandlerEnv,
      dispatch e "fetch_bitcoin_prediction" [("amount", JsValue.num 0)] =
        ⟨.Failed, "Argument amount out of range"⟩) ∧
    (∀ e : HandlerEnv,
      dispatch e "fetch_bitcoin_prediction" [("amount", JsValue.num 11)] =
        ⟨.Failed, "Argument amount out of range"⟩) ∧
    dispatch env "fetch_bitcoin_prediction" [("amount", JsValue.num 5)] =
      ⟨.Done, payload⟩ := by
  refine ⟨fun _ => rfl, fun _ => rfl, ?_⟩
  show fetch_bitcoin_prediction_exec env [("amount", JsValue.num 5)] =
    (⟨.Done, payload⟩ : FnResponse)
  exact fetch_bitcoin_prediction_exec_done hfetch hok hjson _ rfl

/-- Witness for C5 against the healthy concrete environment. -/
theorem c5_fetch_bitcoin_prediction_bounds_witness :
    (∀ e : HandlerEnv,
      dispatch e "fetch_bitcoin_prediction" [("amount", JsValue.num 0)] =
        ⟨.Failed, "Argument amount out of range"⟩) ∧
    (∀ e : HandlerEnv,
      dispatch e "fetch_bitcoin_prediction" [("amount", JsValue.num 11)] =
        ⟨.Failed, "Argument amount out of range"⟩) ∧
    dispatch healthyHandlerEnv "fetch_bitcoin_prediction"
        [("amount", JsValue.num 5)] =
      ⟨.Done, "[\"echo\"]"⟩ :=
  c5_fetch_bitcoin_prediction_bounds healthyHandlerEnv
    ⟨true, 200, "OK", .ok "[\"echo\"]"⟩ "[\"echo\"]" rfl rfl rfl

/-- C6: dispatching detect_rug_pull with no token_address argument is
rejected by validation — Failed naming the missing argument, for every
handler environment — and with a valid address against a service
answering non-2xx, the handler's own catch converts the condition into
Failed describing the status, so no fault propagates. -/
theorem c6_detect_rug_pull_missing_and_http (env : HandlerEnv)
    (addr : String) (r : HttpResponse)
    (hfetch : env.pulseFetch (some addr) = .ok r) (hok : r.ok = false) :
    (∀ e : HandlerEnv, dispatch e "detect_rug_pull" [] =
      ⟨.Failed, "Missing required argument: token_address"⟩) ∧
    dispatch env "detect_rug_pull" [("token_address", JsValue.str addr)] =
      ⟨.Failed, "Failed to detect rug pull: API returned "
        ++ toString r.status ++ " " ++ r.statusText⟩ := by
  refine ⟨fun _ => rfl, ?_⟩
  show detect_rug_pull_exec env [("token_address", JsValue.str addr)] = _
  exact detect_rug_pull_exec_httpError hfetch hok _ rfl

/-- Witness for C6 against the concrete 500-answering environment. -/
theorem c6_detect_rug_pull_missing_and_http_witness :
    (∀ e : HandlerEnv, dispatch e "detect_rug_pull" [] =
      ⟨.Failed, "Missing required argument: token_address"⟩) ∧
    dispatch pulse500HandlerEnv "detect_rug_pull"
        [("token_address", JsValue.str "0xdead")] =
      ⟨.Failed, "Failed to detect rug pull: API returned "
        ++ toString (500 : Nat) ++ " " ++ "Internal Server Error"⟩ :=
  c6_detect_rug_pull_missing_and_http pulse500HandlerEnv "0xdead"
    ⟨false, 500, "Internal Server Error", .error "no body"⟩ rfl rfl

/-- C10: the registry's third action, get_racfathers_info, declares no
arguments, and every dispatch of it — any arguments, any handler
environment — returns Done with the fixed statically built project
payload; in particular its Failed branch is unreachable. -/
theorem c10_get_racfathers_info_always_done :
    get_racfathers_info.args = [] ∧
    actionSpace.find? (fun f => f.name == "get_racfathers_info") =
      some get_racfathers_info ∧
    ∀ (env : HandlerEnv) (args : List (String × JsValue)),
      dispatch env "get_racfathers_info" args =
        ⟨.Done, racfathersInfoJson⟩ := by
  refine ⟨rfl, rfl, fun env args => ?_⟩
  show get_racfathers_info_exec env args = (⟨.Done, racfathersInfoJson⟩ : FnResponse)
  rfl
